import Mathlib

/-!
Verification of the static-web-apps-cli login subsystem.

Part 1 embeds the functions of src/cli/commands/login/login.ts
(storeProjectCredentialsInEnvFile, tryGetAzTenantAndSubscription) as pure
Lean functions.  File-system reads, the result of the external dotenv.parse
call, and the parsed Azure profile JSON are passed in as explicit arguments;
the writes of the functions are returned as data.

Part 2 models the OAuth callback orchestrator, claims normalizer and role
augmentor, which the specification describes but whose source is not part
of this tree; those definitions are modelled from the spec.
-/

namespace SwaLogin

/-- JavaScript substring containment, haystack.includes(needle). -/
def strContains (haystack needle : String) : Bool :=
  decide (needle.data <:+: haystack.data)

/-- JavaScript truthiness of a string-or-undefined value:
undefined and the empty string are falsy. -/
def truthy : Option String → Bool
  | none => false
  | some s => !s.isEmpty

/-- JavaScript template interpolation of a string-or-undefined value:
undefined renders as the text "undefined". -/
def jsTemplate : Option String → String
  | none => "undefined"
  | some s => s

/-- Result of storeProjectCredentialsInEnvFile: the content written to the
env file (none when the file is not written), and whether updateGitIgnore
was invoked. -/
structure StoreResult where
  written : Option String
  gitIgnoreUpdated : Bool
deriving Repr, DecidableEq

/-- Embedding of storeProjectCredentialsInEnvFile (login.ts lines 108-153).
envFileContent is the existing env-file content ("" when the file does not
exist) and config is the key/value list produced by the external
dotenv.parse on that content, in parse order. -/
def storeProjectCredentialsInEnvFile (envFileContent : String)
    (config : List (String × String))
    (subscriptionId tenantId clientId clientSecret : Option String) :
    StoreResult :=
  let oldEnvFileLines := config.map fun kv => kv.1 ++ "=" ++ kv.2
  let entry1 := "AZURE_SUBSCRIPTION_ID=" ++ jsTemplate subscriptionId
  let lines1 : List String :=
    if truthy subscriptionId && !(strContains envFileContent entry1) then [entry1] else []
  let entry2 := "AZURE_TENANT_ID=" ++ jsTemplate tenantId
  let lines2 : List String :=
    if truthy tenantId && !(strContains envFileContent entry2) then [entry2] else []
  let entry3 := "AZURE_CLIENT_ID=" ++ jsTemplate clientId
  let lines3 : List String :=
    if truthy clientId && !(strContains envFileContent entry3) then [entry3] else []
  let entry4 := "AZURE_CLIENT_SECRET=" ++ jsTemplate clientSecret
  let lines4 : List String :=
    if truthy clientSecret && !(strContains envFileContent entry4) then [entry4] else []
  let newEnvFileLines := lines1 ++ lines2 ++ lines3 ++ lines4
  if 0 < newEnvFileLines.length then
    { written := some (String.intercalate "\n" (oldEnvFileLines ++ newEnvFileLines)),
      gitIgnoreUpdated := true }
  else
    { written := none, gitIgnoreUpdated := false }

/-- One subscription entry of the parsed Azure profile JSON. -/
structure AzureSubscription where
  id : String
  tenantId : String
  isDefault : Bool
deriving Repr, DecidableEq

/-- The parsed Azure profile JSON: its subscriptions field may be absent. -/
structure AzureProfile where
  subscriptions : Option (List AzureSubscription)
deriving Repr, DecidableEq

/-- The subset of SWACLIConfig this subsystem reads or writes, plus one
representative unrelated field to state frame properties. -/
structure SWACLIConfig where
  subscriptionId : Option String
  tenantId : Option String
  clientId : Option String
  clientSecret : Option String
  useKeychain : Option Bool
  clearCredentials : Option Bool
  outputLocation : Option String
deriving Repr, DecidableEq

/-- Embedding of tryGetAzTenantAndSubscription (login.ts lines 155-176).
configFileExists is the result of pathExists on AZURE_LOGIN_CONFIG and
azureProfile the result of safeReadJson on that file (none when the JSON is
unreadable). -/
def tryGetAzTenantAndSubscription (configFileExists : Bool)
    (azureProfile : Option AzureProfile) (options : SWACLIConfig) :
    SWACLIConfig :=
  if !configFileExists then
    options
  else
    match azureProfile with
    | none => options
    | some profile =>
      match profile.subscriptions with
      | none => options
      | some allSubscriptions =>
        match allSubscriptions.find? (fun subscription => subscription.isDefault) with
        | none => options
        | some defaultAzureInfo =>
          { options with
              tenantId := some defaultAzureInfo.tenantId,
              subscriptionId := some defaultAzureInfo.id }

/-- The new env lines as the specification sentence claims them: one
KEY=value line per credential whose value is defined (not undefined) and
whose exact KEY=value string is not already a substring of the previous
content; keyEq is the KEY= part of the line. -/
def claimedCredLine (envFileContent keyEq : String) : Option String → List String
  | none => []
  | some v =>
    if strContains envFileContent (keyEq ++ v) then [] else [keyEq ++ v]

/-- The written env-file content as the specification sentence claims it:
the re-serialized dotenv-parsed entries followed by the claimed new
credential lines, joined by newlines; none when the file is not written. -/
def claimedWrittenContent (envFileContent : String)
    (config : List (String × String)) (s t c k : Option String) :
    Option String :=
  let newLines :=
    claimedCredLine envFileContent "AZURE_SUBSCRIPTION_ID=" s ++
    claimedCredLine envFileContent "AZURE_TENANT_ID=" t ++
    claimedCredLine envFileContent "AZURE_CLIENT_ID=" c ++
    claimedCredLine envFileContent "AZURE_CLIENT_SECRET=" k
  if newLines.isEmpty then none
  else
    some (String.intercalate "\n"
      (config.map (fun kv => kv.1 ++ "=" ++ kv.2) ++ newLines))

/-- The new env lines under the amended claim: a line is added only when
the credential value is defined and non-empty (JavaScript-truthy) and its
exact KEY=value string is not already a substring of the previous
content. -/
def amendedCredLine (envFileContent keyEq : String) : Option String → List String
  | none => []
  | some v =>
    if v.isEmpty then []
    else if strContains envFileContent (keyEq ++ v) then []
    else [keyEq ++ v]

/-- The written env-file content under the amended claim. -/
def amendedWrittenContent (envFileContent : String)
    (config : List (String × String)) (s t c k : Option String) :
    Option String :=
  let newLines :=
    amendedCredLine envFileContent "AZURE_SUBSCRIPTION_ID=" s ++
    amendedCredLine envFileContent "AZURE_TENANT_ID=" t ++
    amendedCredLine envFileContent "AZURE_CLIENT_ID=" c ++
    amendedCredLine envFileContent "AZURE_CLIENT_SECRET=" k
  if newLines.isEmpty then none
  else
    some (String.intercalate "\n"
      (config.map (fun kv => kv.1 ++ "=" ++ kv.2) ++ newLines))

end SwaLogin

namespace SwaAuth

/-- Modelled from the spec: the fixed, small set of supported OAuth provider
identifiers (the callback source itself is missing from the tree; the spec
fixes the set and names GitHub, the other identifiers are
representative). -/
def supportedAuthProviders : List String :=
  ["aad", "github", "google", "twitter", "facebook"]

/-- Modelled from the spec: the static provider-to-issuer mapping used for
the always-emitted iss claim (the issuer strings are representative, the
mapping is static). -/
def issuerOf : String → String
  | "aad" => "https://login.microsoftonline.com/common/v2.0"
  | "github" => "https://github.com"
  | "google" => "https://accounts.google.com"
  | "twitter" => "https://twitter.com"
  | "facebook" => "https://facebook.com"
  | p => "https://" ++ p ++ ".example"

/-- A typed claim of the normalized identity. -/
structure Claim where
  typ : String
  val : String
deriving Repr, DecidableEq

/-- The normalized identity record built for one callback. -/
structure ClientPrincipal where
  identityProvider : String
  userDetails : Option String
  claims : List Claim
  userRoles : List String
deriving Repr, DecidableEq

/-- The standard email-address claim type. -/
def emailAddressClaimType : String :=
  "http://schemas.xmlsoap.org/ws/2005/05/identity/claims/emailaddress"

/-- The standard name-identifier claim type. -/
def nameIdentifierClaimType : String :=
  "http://schemas.xmlsoap.org/ws/2005/05/identity/claims/nameidentifier"

/-- A raw provider profile: the user-info response as an ordered mapping
from field names to string values (nested fields appear under dotted keys
such as "data.username"). -/
abbrev RawProfile := List (String × String)

/-- Look up a field of a raw profile. -/
def lookupField (profile : RawProfile) (key : String) : Option String :=
  (profile.find? fun kv => kv.1 == key).map fun kv => kv.2

/-- Emit one claim when the source field is present, none otherwise. -/
def claimIf (typ : String) : Option String → List Claim
  | none => []
  | some v => [⟨typ, v⟩]

/-- Modelled from the spec: the Claims Normalizer (spec section 4.4; its
source is missing from the tree).  Extracts userDetails and name with their
documented fallbacks, emits each standard claim only when its source field
is present, always emits the iss and azp claims, dumps every raw profile
key as a namespaced urn claim for GitHub only, and seeds userRoles with
authenticated and anonymous. -/
def normalizeClaims (provider : String) (profile : RawProfile)
    (configuredClientId : String) : ClientPrincipal :=
  let userDetails :=
    ((lookupField profile "login").orElse fun _ =>
        lookupField profile "email").orElse fun _ =>
      lookupField profile "data.username"
  let nameField :=
    (lookupField profile "name").orElse fun _ => lookupField profile "data.name"
  let idField :=
    (lookupField profile "id").orElse fun _ => lookupField profile "data.id"
  let standardClaims :=
    claimIf emailAddressClaimType userDetails ++
    claimIf "name" nameField ++
    claimIf "picture" (lookupField profile "picture") ++
    claimIf "given_name" (lookupField profile "given_name") ++
    claimIf "family_name" (lookupField profile "family_name") ++
    claimIf nameIdentifierClaimType idField ++
    claimIf "email_verified" (lookupField profile "email_verified")
  let staticClaims : List Claim :=
    [⟨"iss", issuerOf provider⟩, ⟨"azp", configuredClientId⟩]
  let rawClaims : List Claim :=
    if provider == "github" then
      profile.map fun kv => ⟨"urn:github:" ++ kv.1, kv.2⟩
    else []
  { identityProvider := provider
    userDetails := userDetails
    claims := standardClaims ++ staticClaims ++ rawClaims
    userRoles := ["authenticated", "anonymous"] }

/-- Modelled from the spec: the Role Augmentor merge step (spec section 4.5;
its source is missing from the tree).  rolesResponse is the parsed roles
array of the endpoint response, none standing for any failure of the call
(network error, non-JSON body, missing roles field), which the caller
swallows; on success the returned role names are appended in place. -/
def augmentRoles (principal : ClientPrincipal)
    (rolesResponse : Option (List String)) : ClientPrincipal :=
  match rolesResponse with
  | none => principal
  | some roles => { principal with userRoles := principal.userRoles ++ roles }

/-- The nonce embedded in the auth-context cookie: its random value and its
creation timestamp (milliseconds). -/
structure AuthNonce where
  value : String
  createdAt : Nat
deriving Repr, DecidableEq

/-- The decoded auth-context cookie payload. -/
structure AuthContext where
  authNonce : AuthNonce
  postLoginRedirectUri : Option String
deriving Repr, DecidableEq

/-- Modelled from the spec: the fixed time-to-live of a login nonce, in
milliseconds. -/
def nonceTimeToLive : Nat := 300000

/-- The outbound network calls the callback can make, in the order it makes
them. -/
inductive NetworkCall where
  | tokenExchange
  | userInfoFetch
  | roleLookup
deriving Repr, DecidableEq

/-- The HTTP response of one callback: status, plain-text body, redirect
location, the session cookie value set (none when no session is
established), and whether deletion of the auth-context cookie is
scheduled. -/
structure HttpResponse where
  status : Nat
  body : String
  location : Option String
  sessionCookie : Option String
  deletesAuthCookie : Bool
deriving Repr, DecidableEq

/-- The observable outcome of one callback: the HTTP response, the client
principal built (none on any failure), and the trace of outbound network
calls actually made. -/
structure CallbackResult where
  response : HttpResponse
  principal : Option ClientPrincipal
  calls : List NetworkCall
deriving Repr, DecidableEq

/-- The environment of one callback: the SHA-based nonce hash (abstract),
the current time, the encrypt-and-sign step of the Cookie Codec (abstract),
and the outcomes the three outbound calls would have if made (none = the
call fails). -/
structure CallbackEnv where
  hashNonce : String → String
  now : Nat
  encryptPrincipal : ClientPrincipal → String
  tokenResponse : Option String
  userProfile : Option RawProfile
  rolesResponse : Option (List String)

/-- The provider-specific application configuration read by the callback. -/
structure ProviderAppConfig where
  clientIdSetting : Option String
  clientSecretSetting : Option String
  rolesSourcePath : Option String
deriving Repr, DecidableEq

/-- A 401 response with the given plain-text body; the auth-context cookie
is scheduled for deletion on every callback outcome. -/
def unauthorizedResponse (body : String) : HttpResponse :=
  { status := 401, body := body, location := none, sessionCookie := none,
    deletesAuthCookie := true }

/-- The final 302 redirect of a callback: Location is the auth-context
redirect URI or "/", the session cookie is set only when given, and the
auth-context cookie is scheduled for deletion. -/
def redirectResponse (ctx : AuthContext) (sessionCookie : Option String) :
    HttpResponse :=
  { status := 302, body := "",
    location := some (ctx.postLoginRedirectUri.getD "/"),
    sessionCookie := sessionCookie, deletesAuthCookie := true }

/-- Modelled from the spec: the Callback Orchestrator (spec section 4.1;
its source is missing from the tree).  cookieAuthContext is the result of
the decode-and-validate step of the Cookie Codec on the inbound cookie
header (none when the cookie is missing or its signature is invalid).  The
validation sequence is: supported provider, valid cookie, state equals the
hash of the nonce, unexpired nonce, provider configuration present; each
failure terminates with its specific status before any outbound call.  Then
token exchange, user-info fetch, claims normalization and best-effort role
augmentation run in sequence, every failure is converted to a null
principal rather than propagated, and the response always schedules
deletion of the auth-context cookie. -/
def authCallback (env : CallbackEnv) (provider : String)
    (cookieAuthContext : Option AuthContext) (stateParam : String)
    (cfg : ProviderAppConfig) : CallbackResult :=
  if !(supportedAuthProviders.contains provider) then
    { response :=
        { status := 400,
          body := "Provider \x27" ++ provider ++ "\x27 not found",
          location := none, sessionCookie := none, deletesAuthCookie := true },
      principal := none, calls := [] }
  else
    match cookieAuthContext with
    | none =>
      { response := unauthorizedResponse "Invalid login request",
        principal := none, calls := [] }
    | some ctx =>
      if env.hashNonce ctx.authNonce.value != stateParam then
        { response := unauthorizedResponse "Invalid login request",
          principal := none, calls := [] }
      else if nonceTimeToLive < env.now - ctx.authNonce.createdAt then
        { response := unauthorizedResponse "Login timed out. Please try again.",
          principal := none, calls := [] }
      else if cfg.clientIdSetting.isNone || cfg.clientSecretSetting.isNone then
        { response :=
            { status := 400, body := "Missing provider configuration",
              location := none, sessionCookie := none,
              deletesAuthCookie := true },
          principal := none, calls := [] }
      else
        match env.tokenResponse with
        | none =>
          { response := redirectResponse ctx none, principal := none,
            calls := [NetworkCall.tokenExchange] }
        | some _ =>
          match env.userProfile with
          | none =>
            { response := redirectResponse ctx none, principal := none,
              calls := [NetworkCall.tokenExchange, NetworkCall.userInfoFetch] }
          | some profile =>
            let basePrincipal :=
              normalizeClaims provider profile (cfg.clientIdSetting.getD "")
            match cfg.rolesSourcePath with
            | none =>
              { response :=
                  redirectResponse ctx
                    (some (env.encryptPrincipal basePrincipal)),
                principal := some basePrincipal,
                calls := [NetworkCall.tokenExchange, NetworkCall.userInfoFetch] }
            | some _ =>
              let principal := augmentRoles basePrincipal env.rolesResponse
              { response :=
                  redirectResponse ctx (some (env.encryptPrincipal principal)),
                principal := some principal,
                calls := [NetworkCall.tokenExchange, NetworkCall.userInfoFetch,
                          NetworkCall.roleLookup] }

/-- A concrete environment for a fully successful callback. -/
def happyEnv : CallbackEnv :=
  { hashNonce := fun s => "#" ++ s
    now := 1000000
    encryptPrincipal := fun _ => "blob"
    tokenResponse := some "tok"
    userProfile := some [("login", "alice")]
    rolesResponse := some ["admin"] }

/-- A concrete auth context whose nonce is still fresh at the happyEnv
time. -/
def happyCtx : AuthContext := ⟨⟨"n1", 999000⟩, some "/home"⟩

/-- A concrete auth context whose nonce is expired at the happyEnv time. -/
def expiredCtx : AuthContext := ⟨⟨"n1", 0⟩, none⟩

/-- A concrete provider configuration with client id and secret present. -/
def happyCfg : ProviderAppConfig := ⟨some "cid", some "secret", none⟩

/-- happyEnv with a failing token exchange. -/
def tokenFailEnv : CallbackEnv := { happyEnv with tokenResponse := none }

/-- A concrete normalized principal with the default two roles. -/
def happyPrincipal : ClientPrincipal :=
  normalizeClaims "google" [("login", "alice")] "cid"

/-- Every callback response schedules deletion of the auth-context
cookie. -/
theorem authCallback_deletes_auth_cookie (env : CallbackEnv) (provider : String)
    (cookieAuthContext : Option AuthContext) (stateParam : String)
    (cfg : ProviderAppConfig) :
    (authCallback env provider cookieAuthContext stateParam cfg).response.deletesAuthCookie = true := by
  unfold authCallback
  repeat' split
  all_goals rfl

/-- Every callback response has status 400, 401 or 302. -/
theorem authCallback_status_cases (env : CallbackEnv) (provider : String)
    (cookieAuthContext : Option AuthContext) (stateParam : String)
    (cfg : ProviderAppConfig) :
    (authCallback env provider cookieAuthContext stateParam cfg).response.status = 400 ∨
    (authCallback env provider cookieAuthContext stateParam cfg).response.status = 401 ∨
    (authCallback env provider cookieAuthContext stateParam cfg).response.status = 302 := by
  unfold authCallback
  repeat' split
  all_goals simp [unauthorizedResponse, redirectResponse]

/-- C1: a session cookie is issued only if the auth-context cookie decoded
and validated, the state parameter equals the hash of its nonce, the nonce
is unexpired, and both token exchange and user-info retrieval succeeded;
every response, error or session-less redirect included, schedules deletion
of the auth-context cookie, and every response is a 400 or 401 error or a
302 redirect. -/
theorem session_cookie_requires_full_validation (env : CallbackEnv)
    (provider : String) (cookieAuthContext : Option AuthContext)
    (stateParam : String) (cfg : ProviderAppConfig) :
    (∀ sc, (authCallback env provider cookieAuthContext stateParam cfg).response.sessionCookie = some sc →
      ∃ ctx, cookieAuthContext = some ctx ∧
        env.hashNonce ctx.authNonce.value = stateParam ∧
        env.now - ctx.authNonce.createdAt ≤ nonceTimeToLive ∧
        env.tokenResponse.isSome = true ∧
        env.userProfile.isSome = true) ∧
    (authCallback env provider cookieAuthContext stateParam cfg).response.deletesAuthCookie = true ∧
    ((authCallback env provider cookieAuthContext stateParam cfg).response.sessionCookie = none →
      (authCallback env provider cookieAuthContext stateParam cfg).response.status = 400 ∨
      (authCallback env provider cookieAuthContext stateParam cfg).response.status = 401 ∨
      (authCallback env provider cookieAuthContext stateParam cfg).response.status = 302) := by
  refine ⟨?_, authCallback_deletes_auth_cookie env provider cookieAuthContext stateParam cfg,
    fun _ => authCallback_status_cases env provider cookieAuthContext stateParam cfg⟩
  intro sc hsc
  by_cases hp : provider ∈ supportedAuthProviders
  · cases cookieAuthContext with
    | none => simp [authCallback, hp, unauthorizedResponse] at hsc
    | some ctx =>
      by_cases hh : env.hashNonce ctx.authNonce.value = stateParam
      · by_cases hexp : nonceTimeToLive < env.now - ctx.authNonce.createdAt
        · simp [authCallback, hp, hh, hexp, unauthorizedResponse] at hsc
        · by_cases hcfg : cfg.clientIdSetting = none ∨ cfg.clientSecretSetting = none
          · simp [authCallback, hp, hh, hexp, hcfg] at hsc
          · cases htok : env.tokenResponse with
            | none => simp [authCallback, hp, hh, hexp, hcfg, htok, redirectResponse] at hsc
            | some tok =>
              cases hprof : env.userProfile with
              | none =>
                simp [authCallback, hp, hh, hexp, hcfg, htok, hprof, redirectResponse] at hsc
              | some profile =>
                exact ⟨ctx, rfl, hh, by omega, by simp [htok], by simp [hprof]⟩
      · simp [authCallback, hp, hh, unauthorizedResponse] at hsc
  · simp [authCallback, hp] at hsc

/-- C1 witness: in a concrete fully valid callback a session cookie is set,
and the theorem yields the validated facts for it. -/
theorem session_cookie_requires_full_validation_witness :
    ∃ ctx, (some happyCtx : Option AuthContext) = some ctx ∧
      happyEnv.hashNonce ctx.authNonce.value = "#n1" ∧
      happyEnv.now - ctx.authNonce.createdAt ≤ nonceTimeToLive ∧
      happyEnv.tokenResponse.isSome = true ∧
      happyEnv.userProfile.isSome = true :=
  (session_cookie_requires_full_validation happyEnv "github" (some happyCtx)
      "#n1" happyCfg).1 "blob" rfl

/-- C2: whenever any outbound network call is made, the supported-provider,
cookie, state and expiry validations all passed; for a supported provider,
a missing cookie or a state parameter different from the hash of the stored
nonce yields the 401 Invalid login request response with no outbound
call. -/
theorem cookie_validation_precedes_network (env : CallbackEnv)
    (provider : String) (cookieAuthContext : Option AuthContext)
    (stateParam : String) (cfg : ProviderAppConfig) :
    ((authCallback env provider cookieAuthContext stateParam cfg).calls ≠ [] →
      supportedAuthProviders.contains provider = true ∧
      ∃ ctx, cookieAuthContext = some ctx ∧
        env.hashNonce ctx.authNonce.value = stateParam ∧
        env.now - ctx.authNonce.createdAt ≤ nonceTimeToLive) ∧
    (supportedAuthProviders.contains provider = true →
      cookieAuthContext = none →
      (authCallback env provider cookieAuthContext stateParam cfg).response =
        unauthorizedResponse "Invalid login request" ∧
      (authCallback env provider cookieAuthContext stateParam cfg).calls = []) ∧
    (supportedAuthProviders.contains provider = true →
      ∀ ctx, cookieAuthContext = some ctx →
        env.hashNonce ctx.authNonce.value ≠ stateParam →
        (authCallback env provider cookieAuthContext stateParam cfg).response =
          unauthorizedResponse "Invalid login request" ∧
        (authCallback env provider cookieAuthContext stateParam cfg).calls = []) := by
  refine ⟨?_, ?_, ?_⟩
  · intro hcalls
    by_cases hp : provider ∈ supportedAuthProviders
    · cases cookieAuthContext with
      | none => simp [authCallback, hp] at hcalls
      | some ctx =>
        by_cases hh : env.hashNonce ctx.authNonce.value = stateParam
        · by_cases hexp : nonceTimeToLive < env.now - ctx.authNonce.createdAt
          · simp [authCallback, hp, hh, hexp] at hcalls
          · exact ⟨by simpa using hp, ctx, rfl, hh, by omega⟩
        · simp [authCallback, hp, hh] at hcalls
    · simp [authCallback, hp] at hcalls
  · intro hp hnone
    subst hnone
    have hp2 : provider ∈ supportedAuthProviders := by simpa using hp
    simp [authCallback, hp2]
  · intro hp ctx hctx hh
    subst hctx
    have hp2 : provider ∈ supportedAuthProviders := by simpa using hp
    simp [authCallback, hp2, hh]

/-- C2 witness: a concrete request without a cookie gets the 401 response
and no outbound call. -/
theorem cookie_validation_precedes_network_witness :
    (authCallback happyEnv "github" none "#n1" happyCfg).response =
      unauthorizedResponse "Invalid login request" ∧
    (authCallback happyEnv "github" none "#n1" happyCfg).calls = [] :=
  (cookie_validation_precedes_network happyEnv "github" none "#n1" happyCfg).2.1
    (by decide) rfl

/-- C3: a callback for a provider outside the fixed supported set gets a
400 response whose plain-text body names the rejected provider, and no
outbound network call is made. -/
theorem unsupported_provider_rejected (env : CallbackEnv) (provider : String)
    (cookieAuthContext : Option AuthContext) (stateParam : String)
    (cfg : ProviderAppConfig)
    (h : supportedAuthProviders.contains provider = false) :
    (authCallback env provider cookieAuthContext stateParam cfg).response.status = 400 ∧
    (authCallback env provider cookieAuthContext stateParam cfg).response.body =
      "Provider \x27" ++ provider ++ "\x27 not found" ∧
    (authCallback env provider cookieAuthContext stateParam cfg).calls = [] := by
  have h2 : provider ∉ supportedAuthProviders := by simpa using h
  simp [authCallback, h2]

/-- C3 witness: the concrete unsupported provider dummy is rejected with the
named 400 body and no outbound call. -/
theorem unsupported_provider_rejected_witness :
    (authCallback happyEnv "dummy" none "" ⟨none, none, none⟩).response.status = 400 ∧
    (authCallback happyEnv "dummy" none "" ⟨none, none, none⟩).response.body =
      "Provider \x27dummy\x27 not found" ∧
    (authCallback happyEnv "dummy" none "" ⟨none, none, none⟩).calls = [] :=
  unsupported_provider_rejected happyEnv "dummy" none "" ⟨none, none, none⟩
    (by decide)

/-- C4: with a supported provider, a validated cookie and a state parameter
matching the nonce hash, an expired nonce yields 401 with body Login timed
out. Please try again., and no outbound call. -/
theorem expired_nonce_times_out (env : CallbackEnv) (provider : String)
    (ctx : AuthContext) (stateParam : String) (cfg : ProviderAppConfig)
    (hp : supportedAuthProviders.contains provider = true)
    (hh : env.hashNonce ctx.authNonce.value = stateParam)
    (hexp : nonceTimeToLive < env.now - ctx.authNonce.createdAt) :
    (authCallback env provider (some ctx) stateParam cfg).response.status = 401 ∧
    (authCallback env provider (some ctx) stateParam cfg).response.body =
      "Login timed out. Please try again." ∧
    (authCallback env provider (some ctx) stateParam cfg).calls = [] := by
  have hp2 : provider ∈ supportedAuthProviders := by simpa using hp
  simp [authCallback, hp2, hh, hexp, unauthorizedResponse]

/-- C4 witness: a concrete expired nonce with matching state times out. -/
theorem expired_nonce_times_out_witness :
    (authCallback happyEnv "github" (some expiredCtx) "#n1" happyCfg).response.status = 401 ∧
    (authCallback happyEnv "github" (some expiredCtx) "#n1" happyCfg).response.body =
      "Login timed out. Please try again." ∧
    (authCallback happyEnv "github" (some expiredCtx) "#n1" happyCfg).calls = [] :=
  expired_nonce_times_out happyEnv "github" expiredCtx "#n1" happyCfg
    (by decide) rfl (by decide)

/-- C5: when token exchange or the user-info fetch fails on an otherwise
valid callback, the principal is null and the callback still completes with
a 302 redirect that deletes the auth-context cookie and sets no session
cookie. -/
theorem token_failure_redirects_without_session (env : CallbackEnv)
    (provider : String) (ctx : AuthContext) (stateParam : String)
    (cfg : ProviderAppConfig)
    (hp : supportedAuthProviders.contains provider = true)
    (hh : env.hashNonce ctx.authNonce.value = stateParam)
    (hexp : env.now - ctx.authNonce.createdAt ≤ nonceTimeToLive)
    (hcid : cfg.clientIdSetting ≠ none)
    (hcs : cfg.clientSecretSetting ≠ none)
    (hfail : env.tokenResponse = none ∨ env.userProfile = none) :
    (authCallback env provider (some ctx) stateParam cfg).principal = none ∧
    (authCallback env provider (some ctx) stateParam cfg).response.status = 302 ∧
    (authCallback env provider (some ctx) stateParam cfg).response.sessionCookie = none ∧
    (authCallback env provider (some ctx) stateParam cfg).response.deletesAuthCookie = true ∧
    (authCallback env provider (some ctx) stateParam cfg).response.location =
      some (ctx.postLoginRedirectUri.getD "/") := by
  have hp2 : provider ∈ supportedAuthProviders := by simpa using hp
  have hexp2 : ¬ (nonceTimeToLive < env.now - ctx.authNonce.createdAt) := by omega
  rcases hfail with hf | hf
  · simp [authCallback, hp2, hh, hexp2, hcid, hcs, hf, redirectResponse]
  · cases htok : env.tokenResponse with
    | none => simp [authCallback, hp2, hh, hexp2, hcid, hcs, htok, redirectResponse]
    | some tok => simp [authCallback, hp2, hh, hexp2, hcid, hcs, htok, hf, redirectResponse]

/-- C5 witness: a concrete failing token exchange yields the session-less
redirect. -/
theorem token_failure_redirects_without_session_witness :
    (authCallback tokenFailEnv "github" (some happyCtx) "#n1" happyCfg).principal = none ∧
    (authCallback tokenFailEnv "github" (some happyCtx) "#n1" happyCfg).response.status = 302 ∧
    (authCallback tokenFailEnv "github" (some happyCtx) "#n1" happyCfg).response.sessionCookie = none ∧
    (authCallback tokenFailEnv "github" (some happyCtx) "#n1" happyCfg).response.deletesAuthCookie = true ∧
    (authCallback tokenFailEnv "github" (some happyCtx) "#n1" happyCfg).response.location =
      some (happyCtx.postLoginRedirectUri.getD "/") :=
  token_failure_redirects_without_session tokenFailEnv "github" happyCtx "#n1"
    happyCfg (by decide) rfl (by decide) (by decide) (by decide) (Or.inl rfl)

/-- C6: for any supported non-GitHub provider, the profile with login
alice, name Alice A and picture p.png normalizes to exactly the
email-address, name and picture claims plus iss and azp, with no namespaced
raw claims, and userRoles is the default pair. -/
theorem normalizeClaims_standard_profile (provider clientId : String)
    (hp : supportedAuthProviders.contains provider = true)
    (hng : provider ≠ "github") :
    (normalizeClaims provider
        [("login", "alice"), ("name", "Alice A"), ("picture", "p.png")]
        clientId).claims =
      [⟨emailAddressClaimType, "alice"⟩, ⟨"name", "Alice A"⟩,
       ⟨"picture", "p.png"⟩, ⟨"iss", issuerOf provider⟩, ⟨"azp", clientId⟩] ∧
    (normalizeClaims provider
        [("login", "alice"), ("name", "Alice A"), ("picture", "p.png")]
        clientId).userRoles = ["authenticated", "anonymous"] := by
  have hp2 : provider ∈ supportedAuthProviders := by simpa using hp
  fin_cases hp2
  · exact ⟨rfl, rfl⟩
  · exact absurd rfl hng
  · exact ⟨rfl, rfl⟩
  · exact ⟨rfl, rfl⟩
  · exact ⟨rfl, rfl⟩

/-- C6 witness: the concrete provider google with the concrete client id
produces exactly the five claims and the default roles. -/
theorem normalizeClaims_standard_profile_witness :
    (normalizeClaims "google"
        [("login", "alice"), ("name", "Alice A"), ("picture", "p.png")]
        "client-1").claims =
      [⟨emailAddressClaimType, "alice"⟩, ⟨"name", "Alice A"⟩,
       ⟨"picture", "p.png"⟩, ⟨"iss", issuerOf "google"⟩,
       ⟨"azp", "client-1"⟩] ∧
    (normalizeClaims "google"
        [("login", "alice"), ("name", "Alice A"), ("picture", "p.png")]
        "client-1").userRoles = ["authenticated", "anonymous"] :=
  normalizeClaims_standard_profile "google" "client-1" (by decide) (by decide)

/-- The callback result is insensitive to the roles-call outcome except for
the principal content: status, session-cookie presence, location, cookie
deletion and the call trace agree between a failed roles call and any
other. -/
theorem authCallback_rolesResponse_frame (env : CallbackEnv) (provider : String)
    (cookieAuthContext : Option AuthContext) (stateParam : String)
    (cfg : ProviderAppConfig) :
    (authCallback { env with rolesResponse := none } provider cookieAuthContext stateParam cfg).response.status =
      (authCallback env provider cookieAuthContext stateParam cfg).response.status ∧
    (authCallback { env with rolesResponse := none } provider cookieAuthContext stateParam cfg).response.sessionCookie.isSome =
      (authCallback env provider cookieAuthContext stateParam cfg).response.sessionCookie.isSome ∧
    (authCallback { env with rolesResponse := none } provider cookieAuthContext stateParam cfg).response.location =
      (authCallback env provider cookieAuthContext stateParam cfg).response.location ∧
    (authCallback { env with rolesResponse := none } provider cookieAuthContext stateParam cfg).response.deletesAuthCookie =
      (authCallback env provider cookieAuthContext stateParam cfg).response.deletesAuthCookie ∧
    (authCallback { env with rolesResponse := none } provider cookieAuthContext stateParam cfg).calls =
      (authCallback env provider cookieAuthContext stateParam cfg).calls := by
  by_cases hp : provider ∈ supportedAuthProviders
  · cases cookieAuthContext with
    | none => simp [authCallback, hp]
    | some ctx =>
      by_cases hh : env.hashNonce ctx.authNonce.value = stateParam
      · by_cases hexp : nonceTimeToLive < env.now - ctx.authNonce.createdAt
        · simp [authCallback, hp, hh, hexp]
        · by_cases hcfg : cfg.clientIdSetting = none ∨ cfg.clientSecretSetting = none
          · simp [authCallback, hp, hh, hexp, hcfg]
          · cases htok : env.tokenResponse with
            | none => simp [authCallback, hp, hh, hexp, hcfg, htok]
            | some tok =>
              cases hprof : env.userProfile with
              | none => simp [authCallback, hp, hh, hexp, hcfg, htok, hprof]
              | some profile =>
                cases hrs : cfg.rolesSourcePath with
                | none => simp [authCallback, hp, hh, hexp, hcfg, htok, hprof, hrs]
                | some rp =>
                  simp [authCallback, hp, hh, hexp, hcfg, htok, hprof, hrs,
                    redirectResponse]
      · simp [authCallback, hp, hh]
  · simp [authCallback, hp]

/-- C7: a failed roles call leaves a default-roles principal with exactly
authenticated and anonymous and leaves the observable callback outcome
unchanged; a successful call with roles admin appends to give exactly
authenticated, anonymous, admin, and in general appends without
deduplication or removal. -/
theorem role_augmentor_spec (p : ClientPrincipal) (env : CallbackEnv)
    (provider : String) (cookieAuthContext : Option AuthContext)
    (stateParam : String) (cfg : ProviderAppConfig)
    (hroles : p.userRoles = ["authenticated", "anonymous"]) :
    augmentRoles p none = p ∧
    (augmentRoles p none).userRoles = ["authenticated", "anonymous"] ∧
    (augmentRoles p (some ["admin"])).userRoles =
      ["authenticated", "anonymous", "admin"] ∧
    (∀ roles, (augmentRoles p (some roles)).userRoles = p.userRoles ++ roles) ∧
    ((authCallback { env with rolesResponse := none } provider cookieAuthContext stateParam cfg).response.status =
        (authCallback env provider cookieAuthContext stateParam cfg).response.status ∧
      (authCallback { env with rolesResponse := none } provider cookieAuthContext stateParam cfg).response.sessionCookie.isSome =
        (authCallback env provider cookieAuthContext stateParam cfg).response.sessionCookie.isSome ∧
      (authCallback { env with rolesResponse := none } provider cookieAuthContext stateParam cfg).response.location =
        (authCallback env provider cookieAuthContext stateParam cfg).response.location ∧
      (authCallback { env with rolesResponse := none } provider cookieAuthContext stateParam cfg).response.deletesAuthCookie =
        (authCallback env provider cookieAuthContext stateParam cfg).response.deletesAuthCookie ∧
      (authCallback { env with rolesResponse := none } provider cookieAuthContext stateParam cfg).calls =
        (authCallback env provider cookieAuthContext stateParam cfg).calls) := by
  refine ⟨rfl, hroles, ?_, fun roles => rfl,
    authCallback_rolesResponse_frame env provider cookieAuthContext stateParam cfg⟩
  simp [augmentRoles, hroles]

/-- C7 witness: the concrete default-roles principal augmented with admin
has exactly the three roles. -/
theorem role_augmentor_spec_witness :
    (augmentRoles happyPrincipal (some ["admin"])).userRoles =
      ["authenticated", "anonymous", "admin"] :=
  (role_augmentor_spec happyPrincipal happyEnv "google" (some happyCtx) "#n1"
      happyCfg rfl).2.2.1

end SwaAuth

namespace SwaLogin

/-- C8: when each of the four credentials is undefined or its exact
KEY=value entry already occurs as a substring of the existing env-file
content, the env file is not written and the gitignore update is not
performed. -/
theorem store_no_write_when_all_stale (envFileContent : String)
    (config : List (String × String)) (s t c k : Option String)
    (hs : s = none ∨ strContains envFileContent ("AZURE_SUBSCRIPTION_ID=" ++ jsTemplate s) = true)
    (ht : t = none ∨ strContains envFileContent ("AZURE_TENANT_ID=" ++ jsTemplate t) = true)
    (hc : c = none ∨ strContains envFileContent ("AZURE_CLIENT_ID=" ++ jsTemplate c) = true)
    (hk : k = none ∨ strContains envFileContent ("AZURE_CLIENT_SECRET=" ++ jsTemplate k) = true) :
    storeProjectCredentialsInEnvFile envFileContent config s t c k =
      { written := none, gitIgnoreUpdated := false } := by
  have h1 : (truthy s && !(strContains envFileContent ("AZURE_SUBSCRIPTION_ID=" ++ jsTemplate s))) = false := by
    rcases hs with rfl | hs
    · rfl
    · simp [hs]
  have h2 : (truthy t && !(strContains envFileContent ("AZURE_TENANT_ID=" ++ jsTemplate t))) = false := by
    rcases ht with rfl | ht
    · rfl
    · simp [ht]
  have h3 : (truthy c && !(strContains envFileContent ("AZURE_CLIENT_ID=" ++ jsTemplate c))) = false := by
    rcases hc with rfl | hc
    · rfl
    · simp [hc]
  have h4 : (truthy k && !(strContains envFileContent ("AZURE_CLIENT_SECRET=" ++ jsTemplate k))) = false := by
    rcases hk with rfl | hk
    · rfl
    · simp [hk]
  simp [storeProjectCredentialsInEnvFile, h1, h2, h3, h4]

/-- C8 witness: with only a tenant id whose entry is already present, the
file is untouched and gitignore is not updated. -/
theorem store_no_write_when_all_stale_witness :
    storeProjectCredentialsInEnvFile "AZURE_TENANT_ID=t1"
        [("AZURE_TENANT_ID", "t1")] none (some "t1") none none =
      { written := none, gitIgnoreUpdated := false } :=
  store_no_write_when_all_stale "AZURE_TENANT_ID=t1" [("AZURE_TENANT_ID", "t1")]
    none (some "t1") none none (Or.inl rfl) (Or.inr (by decide))
    (Or.inl rfl) (Or.inl rfl)

/-- C9 counterexample: with a defined but empty tenant id the source omits
the AZURE_TENANT_ID line, while the claimed content (every defined value
gets a line) includes it, so the written content differs from the claim. -/
theorem store_write_diverges_from_claim :
    (storeProjectCredentialsInEnvFile "" [] (some "A") (some "") none none).written =
      some "AZURE_SUBSCRIPTION_ID=A" ∧
    claimedWrittenContent "" [] (some "A") (some "") none none =
      some ("AZURE_SUBSCRIPTION_ID=A" ++ "\n" ++ "AZURE_TENANT_ID=") ∧
    (storeProjectCredentialsInEnvFile "" [] (some "A") (some "") none none).written ≠
      claimedWrittenContent "" [] (some "A") (some "") none none := by
  exact ⟨rfl, by decide, by decide⟩

/-- The per-credential lines of the source agree with the amended claim. -/
theorem credLine_eq_amended (envFileContent keyEq : String) (v : Option String) :
    (if truthy v && !(strContains envFileContent (keyEq ++ jsTemplate v))
      then [keyEq ++ jsTemplate v] else []) =
    amendedCredLine envFileContent keyEq v := by
  cases v with
  | none => rfl
  | some s =>
    cases hs : s.isEmpty with
    | true => simp [truthy, jsTemplate, amendedCredLine, hs]
    | false =>
      cases hcon : strContains envFileContent (keyEq ++ s) with
      | true => simp [truthy, jsTemplate, amendedCredLine, hs, hcon]
      | false => simp [truthy, jsTemplate, amendedCredLine, hs, hcon]

/-- C9 amended: whenever the env file is written, its content is exactly
the re-serialized dotenv-parsed entries followed by one KEY=value line per
credential whose value is defined and non-empty (JavaScript-truthy) and not
already present as a substring, joined by newlines. -/
theorem store_written_matches_amended (envFileContent : String)
    (config : List (String × String)) (s t c k : Option String) :
    (storeProjectCredentialsInEnvFile envFileContent config s t c k).written =
      amendedWrittenContent envFileContent config s t c k := by
  unfold storeProjectCredentialsInEnvFile amendedWrittenContent
  simp only []
  rw [credLine_eq_amended, credLine_eq_amended, credLine_eq_amended,
    credLine_eq_amended]
  cases hL : (amendedCredLine envFileContent "AZURE_SUBSCRIPTION_ID=" s ++
      amendedCredLine envFileContent "AZURE_TENANT_ID=" t ++
      amendedCredLine envFileContent "AZURE_CLIENT_ID=" c ++
      amendedCredLine envFileContent "AZURE_CLIENT_SECRET=" k) with
  | nil => simp [hL]
  | cons a l => simp [hL]

/-- C10: when the Azure login config file does not exist the options are
returned unchanged; when it exists and the profile has a default
subscription, tenantId and subscriptionId are overwritten with the values
of that subscription, caller-supplied or not, and all other fields are
unchanged. -/
theorem tryGetAzTenantAndSubscription_spec (configFileExists : Bool)
    (azureProfile : Option AzureProfile) (options : SWACLIConfig) :
    (configFileExists = false →
      tryGetAzTenantAndSubscription configFileExists azureProfile options = options) ∧
    (∀ profile subs d, configFileExists = true → azureProfile = some profile →
      profile.subscriptions = some subs →
      subs.find? (fun x => x.isDefault) = some d →
      (tryGetAzTenantAndSubscription configFileExists azureProfile options).tenantId =
        some d.tenantId ∧
      (tryGetAzTenantAndSubscription configFileExists azureProfile options).subscriptionId =
        some d.id ∧
      (tryGetAzTenantAndSubscription configFileExists azureProfile options).clientId =
        options.clientId ∧
      (tryGetAzTenantAndSubscription configFileExists azureProfile options).clientSecret =
        options.clientSecret ∧
      (tryGetAzTenantAndSubscription configFileExists azureProfile options).useKeychain =
        options.useKeychain ∧
      (tryGetAzTenantAndSubscription configFileExists azureProfile options).clearCredentials =
        options.clearCredentials ∧
      (tryGetAzTenantAndSubscription configFileExists azureProfile options).outputLocation =
        options.outputLocation) := by
  constructor
  · intro h
    subst h
    rfl
  · intro profile subs d hex hprof hsubs hfind
    subst hex
    subst hprof
    simp [tryGetAzTenantAndSubscription, hsubs, hfind]

/-- C10 witness: a concrete profile whose second subscription is the
default overwrites the caller-supplied tenant and leaves the other fields
alone. -/
theorem tryGetAzTenantAndSubscription_spec_witness :
    (tryGetAzTenantAndSubscription true
        (some ⟨some [⟨"sub0", "ten0", false⟩, ⟨"sub1", "ten1", true⟩]⟩)
        ⟨none, some "caller-tenant", some "ci", none, none, none, some "out"⟩).tenantId =
      some "ten1" ∧
    (tryGetAzTenantAndSubscription true
        (some ⟨some [⟨"sub0", "ten0", false⟩, ⟨"sub1", "ten1", true⟩]⟩)
        ⟨none, some "caller-tenant", some "ci", none, none, none, some "out"⟩).subscriptionId =
      some "sub1" ∧
    (tryGetAzTenantAndSubscription true
        (some ⟨some [⟨"sub0", "ten0", false⟩, ⟨"sub1", "ten1", true⟩]⟩)
        ⟨none, some "caller-tenant", some "ci", none, none, none, some "out"⟩).clientId =
      some "ci" ∧
    (tryGetAzTenantAndSubscription true
        (some ⟨some [⟨"sub0", "ten0", false⟩, ⟨"sub1", "ten1", true⟩]⟩)
        ⟨none, some "caller-tenant", some "ci", none, none, none, some "out"⟩).clientSecret =
      none ∧
    (tryGetAzTenantAndSubscription true
        (some ⟨some [⟨"sub0", "ten0", false⟩, ⟨"sub1", "ten1", true⟩]⟩)
        ⟨none, some "caller-tenant", some "ci", none, none, none, some "out"⟩).useKeychain =
      none ∧
    (tryGetAzTenantAndSubscription true
        (some ⟨some [⟨"sub0", "ten0", false⟩, ⟨"sub1", "ten1", true⟩]⟩)
        ⟨none, some "caller-tenant", some "ci", none, none, none, some "out"⟩).clearCredentials =
      none ∧
    (tryGetAzTenantAndSubscription true
        (some ⟨some [⟨"sub0", "ten0", false⟩, ⟨"sub1", "ten1", true⟩]⟩)
        ⟨none, some "caller-tenant", some "ci", none, none, none, some "out"⟩).outputLocation =
      some "out" :=
  (tryGetAzTenantAndSubscription_spec true
      (some ⟨some [⟨"sub0", "ten0", false⟩, ⟨"sub1", "ten1", true⟩]⟩)
      ⟨none, some "caller-tenant", some "ci", none, none, none, some "out"⟩).2
    ⟨some [⟨"sub0", "ten0", false⟩, ⟨"sub1", "ten1", true⟩]⟩
    [⟨"sub0", "ten0", false⟩, ⟨"sub1", "ten1", true⟩]
    ⟨"sub1", "ten1", true⟩ rfl rfl rfl (by decide)

end SwaLogin

